import Mathlib

/-!
Shallow embedding of the storage logic of `simple-cmdb` (`src/app.py`).

The program is a Flask application over a SQLite file.  We embed each table as
a list of rows plus an AUTOINCREMENT sequence counter (SQLite keeps these in
`sqlite_sequence`; an `INTEGER PRIMARY KEY AUTOINCREMENT` column always receives
`seq + 1`, and `seq` never decreases, so deleted or replaced ids are never
reused).  Timestamps are modelled as an abstract `Nat` clock value `now` passed
to each operation; `REAL` columns hold values the code stores verbatim and never
computes with, so they are embedded as `Int`.

Two facts of the runtime matter throughout and are reflected in the embedding:

* `discover_local` writes the server row with `INSERT OR REPLACE`.  On a
  `hostname` UNIQUE conflict SQLite deletes the conflicting row and inserts a
  fresh row: unlisted columns take their column defaults (`NULL`, or `'active'`
  for `status` which the statement lists explicitly), and the fresh row gets a
  new AUTOINCREMENT id.

* every `sqlite3.connect(DB_PATH)` in `app.py` leaves `PRAGMA foreign_keys` at
  its SQLite default OFF, so the `ON DELETE CASCADE` / `ON DELETE SET NULL`
  clauses declared in `init_db` are never enforced: deletes touch only the
  targeted table and inserts are not checked against referenced tables.
-/

namespace SimpleCMDB

/-- Row of the `servers` table (`init_db`, src/app.py lines 33-52). -/
structure Server where
  id : Nat
  hostname : String
  ip_address : Option String := none
  os_type : Option String := none
  os_version : Option String := none
  cpu_cores : Option Int := none
  memory_gb : Option Int := none
  disk_gb : Option Int := none
  environment : Option String := none
  status : Option String := some "active"
  location : Option String := none
  owner : Option String := none
  notes : Option String := none
  last_seen : Option Nat := none
  created_at : Nat := 0
  updated_at : Nat := 0
  deriving Repr, DecidableEq

/-- Row of the `applications` table (`init_db`, src/app.py lines 55-70). -/
structure Application where
  id : Nat
  name : String
  version : Option String := none
  type : Option String := none
  language : Option String := none
  repository_url : Option String := none
  documentation_url : Option String := none
  owner : Option String := none
  criticality : Option String := none
  notes : Option String := none
  created_at : Nat := 0
  updated_at : Nat := 0
  deriving Repr, DecidableEq

/-- Row of the `services` table (`init_db`, src/app.py lines 73-91).  The
`server_id` and `application_id` columns are declared with `ON DELETE CASCADE`
resp. `ON DELETE SET NULL` foreign keys. -/
structure Service where
  id : Nat
  server_id : Nat
  application_id : Option Nat := none
  service_name : String
  port : Option Int := none
  protocol : Option String := none
  status : Option String := some "running"
  process_name : Option String := none
  start_command : Option String := none
  config_file : Option String := none
  log_file : Option String := none
  created_at : Nat := 0
  updated_at : Nat := 0
  deriving Repr, DecidableEq

/-- Row of the `dependencies` table (`init_db`, src/app.py lines 94-107).  Both
endpoint columns are declared with `ON DELETE CASCADE` foreign keys into
`services`. -/
structure Dependency where
  id : Nat
  source_service_id : Nat
  target_service_id : Nat
  dependency_type : Option String := none
  port : Option Int := none
  protocol : Option String := none
  description : Option String := none
  created_at : Nat := 0
  deriving Repr, DecidableEq

/-- The `system_info` dict assembled by `discover_local` (src/app.py lines
251-262) from the host-introspection calls; in the embedding it is the scan
payload handed to the reconciler. -/
structure SystemInfo where
  hostname : String
  ip_address : String
  os_type : String
  os_version : String
  cpu_cores : Int
  memory_gb : Int
  disk_gb : Int
  platform : String := ""
  architecture : String := ""
  processor : String := ""
  deriving Repr, DecidableEq

/-- One entry of the `services` list that `discover_local` collects from
`psutil.process_iter` (src/app.py lines 265-277). -/
structure ProcInfo where
  name : String
  pid : Nat
  status : String
  memory_percent : Int
  deriving Repr, DecidableEq

/-- One entry of the `connections` list that `discover_local` collects from
`psutil.net_connections` (src/app.py lines 280-287). -/
structure ConnInfo where
  port : Int
  address : String
  type : String
  deriving Repr, DecidableEq

/-- The JSON document `discover_local` stores in `discovery_history.data`
(src/app.py lines 313-317): the system facts, the first 20 observed processes,
and the observed listening sockets. -/
structure ScanData where
  system : SystemInfo
  services : List ProcInfo
  connections : List ConnInfo
  deriving Repr, DecidableEq

/-- Row of the `discovery_history` table (`init_db`, src/app.py lines 110-119). -/
structure DiscoveryRecord where
  id : Nat
  server_id : Nat
  discovery_type : String
  data : ScanData
  discovered_at : Nat
  deriving Repr, DecidableEq

/-- The SQLite database file `cmdb.db`: one list per table plus the
`sqlite_sequence` counter of each AUTOINCREMENT primary key. -/
structure DB where
  servers : List Server := []
  applications : List Application := []
  services : List Service := []
  dependencies : List Dependency := []
  discovery_history : List DiscoveryRecord := []
  seq_servers : Nat := 0
  seq_applications : Nat := 0
  seq_services : Nat := 0
  seq_dependencies : Nat := 0
  seq_discovery : Nat := 0
  deriving Repr, DecidableEq

/-- The empty database produced by `init_db` on a fresh file. -/
def emptyDB : DB := {}

/-- SELECT the server row with the given hostname (`hostname` is UNIQUE, so at
most one row matches). -/
def serverByHostname (db : DB) (h : String) : Option Server :=
  db.servers.find? (fun s => s.hostname = h)

/-- Python string slicing `s[:n]`: the first `n` characters of `s`. -/
def strTake (s : String) (n : Nat) : String :=
  ⟨s.data.take n⟩

/-- The expression `system_info['os_version'][:50] if system_info['os_version']
else 'Unknown'` on src/app.py line 300: an empty (falsy) OS version string is
stored as the literal `'Unknown'`, any other is truncated to its first 50
characters. -/
def storedOsVersion (s : String) : String :=
  if s = "" then "Unknown" else strTake s 50

/-- The fresh `servers` row written by `discover_local`'s
`INSERT OR REPLACE INTO servers (hostname, ip_address, os_type, os_version,
cpu_cores, memory_gb, disk_gb, last_seen, status) VALUES (..., 'active')`
(src/app.py lines 294-303): the listed columns come from the scan, every other
column takes its schema default (`NULL`, `CURRENT_TIMESTAMP` for the two
bookkeeping timestamps). -/
def discoveredRow (newId : Nat) (scan : SystemInfo) (now : Nat) : Server :=
  { id := newId
    hostname := scan.hostname
    ip_address := some scan.ip_address
    os_type := some scan.os_type
    os_version := some (storedOsVersion scan.os_version)
    cpu_cores := some scan.cpu_cores
    memory_gb := some scan.memory_gb
    disk_gb := some scan.disk_gb
    environment := none
    status := some "active"
    location := none
    owner := none
    notes := none
    last_seen := some now
    created_at := now
    updated_at := now }

/-- The `discovery_history` row appended by `discover_local` (src/app.py lines
310-317): type tag `'local_discovery'`, payload holding the system facts, the
first 20 processes and the socket list. -/
def discoveryRecordOf (recId serverId : Nat) (scan : SystemInfo)
    (procs : List ProcInfo) (conns : List ConnInfo) (now : Nat) : DiscoveryRecord :=
  { id := recId
    server_id := serverId
    discovery_type := "local_discovery"
    data := { system := scan, services := procs.take 20, connections := conns }
    discovered_at := now }

/-- The database write phase of `discover_local` (src/app.py lines 289-320),
with the host facts it gathered passed in as the scan payload.  `INSERT OR
REPLACE` deletes any row conflicting on the UNIQUE `hostname` and inserts a
fresh row whose AUTOINCREMENT id is `seq + 1`; `c.lastrowid` is that fresh id
(always nonzero), and it is what the subsequent `discovery_history` insert
references.  Returns the updated database and the resolved server id. -/
def discover_local (db : DB) (scan : SystemInfo) (procs : List ProcInfo)
    (conns : List ConnInfo) (now : Nat) : DB × Nat :=
  let newId := db.seq_servers + 1
  let row := discoveredRow newId scan now
  ({ db with
      servers := db.servers.filter (fun s => s.hostname ≠ scan.hostname) ++ [row]
      seq_servers := newId
      discovery_history := db.discovery_history ++
        [discoveryRecordOf (db.seq_discovery + 1) newId scan procs conns now]
      seq_discovery := db.seq_discovery + 1 },
    newId)

/-- Repeated reconciliation: fold `discover_local` over a list of
(scan, processes, sockets, timestamp) tuples. -/
def reconcileAll (db : DB) :
    List (SystemInfo × List ProcInfo × List ConnInfo × Nat) → DB
  | [] => db
  | x :: rest => reconcileAll (discover_local db x.1 x.2.1 x.2.2.1 x.2.2.2).1 rest

/-- Error payloads of the JSON API handlers: `conflict` is the
`sqlite3.IntegrityError` branch (HTTP 400), `serverError` the generic
`except Exception` branch (HTTP 500). -/
inductive ApiError where
  | conflict (msg : String)
  | serverError (msg : String)
  deriving Repr, DecidableEq

/-- Request body of `/api/server/add` (src/app.py lines 334-351).
`data['hostname']` is a required key; the others are read with `.get`, so
`none` stands for an absent key. -/
structure AddServerRequest where
  hostname : String
  ip_address : Option String := none
  os_type : Option String := none
  os_version : Option String := none
  environment : Option String := none
  owner : Option String := none
  notes : Option String := none
  deriving Repr, DecidableEq

/-- Handler `add_server` (src/app.py lines 334-363).  The plain `INSERT INTO
servers` hits the UNIQUE constraint on `hostname` when a row with that hostname
exists, raising `sqlite3.IntegrityError` before anything is written; the
handler catches it and answers `'Server already exists'` with HTTP 400, the
connection is closed without a commit and the database is unchanged.
Otherwise the row is inserted (environment defaulting to `'production'` when
the key is absent, status `'active'`) and the fresh id returned. -/
def add_server (db : DB) (req : AddServerRequest) (now : Nat) :
    Except ApiError (DB × Nat) :=
  if db.servers.any (fun s => s.hostname = req.hostname) then
    .error (.conflict "Server already exists")
  else
    let newId := db.seq_servers + 1
    let row : Server :=
      { id := newId
        hostname := req.hostname
        ip_address := req.ip_address
        os_type := req.os_type
        os_version := req.os_version
        environment := some (req.environment.getD "production")
        status := some "active"
        owner := req.owner
        notes := req.notes
        created_at := now
        updated_at := now }
    .ok ({ db with servers := db.servers ++ [row], seq_servers := newId }, newId)

/-- Request body of `/api/service/add` (src/app.py lines 396-413):
`server_id` and `service_name` are required keys, the rest are `.get` reads. -/
structure AddServiceRequest where
  server_id : Nat
  application_id : Option Nat := none
  service_name : String
  port : Option Int := none
  protocol : Option String := none
  status : Option String := none
  deriving Repr, DecidableEq

/-- The `services` row inserted by `add_service`: protocol defaults to
`'tcp'` and status to `'running'` when the keys are absent; the remaining
columns take their schema defaults. -/
def serviceRow (newId : Nat) (req : AddServiceRequest) (now : Nat) : Service :=
  { id := newId
    server_id := req.server_id
    application_id := req.application_id
    service_name := req.service_name
    port := req.port
    protocol := some (req.protocol.getD "tcp")
    status := some (req.status.getD "running")
    created_at := now
    updated_at := now }

/-- Handler `add_service` (src/app.py lines 396-423).  The insert carries no
validation: the `port` value is bound as given (negative values included — the
schema has no CHECK constraint), and with foreign keys unenforced the
`server_id` is not checked either.  No constraint of the `services` table can
fire, so the handler always succeeds. -/
def add_service (db : DB) (req : AddServiceRequest) (now : Nat) : DB × Nat :=
  let newId := db.seq_services + 1
  ({ db with services := db.services ++ [serviceRow newId req now],
             seq_services := newId }, newId)

/-- Request body of `/api/dependency/add` (src/app.py lines 425-441):
`data['source_service_id']` and `data['target_service_id']` are required keys. -/
structure AddDependencyRequest where
  source_service_id : Nat
  target_service_id : Nat
  dependency_type : Option String := none
  description : Option String := none
  deriving Repr, DecidableEq

/-- Handler `add_dependency` (src/app.py lines 425-450).  The handler performs
no existence check on the endpoint ids, and because no connection enables
`PRAGMA foreign_keys` the declared foreign keys into `services` are not
enforced: the insert succeeds for arbitrary ids, dangling ones included. -/
def add_dependency (db : DB) (req : AddDependencyRequest) (now : Nat) : DB × Nat :=
  let newId := db.seq_dependencies + 1
  let row : Dependency :=
    { id := newId
      source_service_id := req.source_service_id
      target_service_id := req.target_service_id
      dependency_type := some (req.dependency_type.getD "requires")
      description := req.description
      created_at := now }
  ({ db with dependencies := db.dependencies ++ [row],
             seq_dependencies := newId }, newId)

/-- `DELETE FROM servers WHERE id = ?` executed over a connection opened the
way `app.py` opens every connection (`sqlite3.connect(DB_PATH)` with
`PRAGMA foreign_keys` left at its default OFF): SQLite removes only the
matching `servers` row; the `ON DELETE CASCADE` clauses declared on
`services.server_id` and `discovery_history.server_id` are not enforced, so
dependent rows stay behind with dangling references.  (The repository ships
no delete endpoint; this is the statement any administrative delete would
execute against the schema of `init_db`.) -/
def delete_server_asExecuted (db : DB) (sid : Nat) : DB :=
  { db with servers := db.servers.filter (fun s => s.id ≠ sid) }

/-- `DELETE FROM applications WHERE id = ?` under the same connection
settings: only the `applications` row is removed; the `ON DELETE SET NULL`
clause on `services.application_id` is not enforced, so referencing services
keep their now-dangling `application_id` instead of having it cleared. -/
def delete_application_asExecuted (db : DB) (aid : Nat) : DB :=
  { db with applications := db.applications.filter (fun a => a.id ≠ aid) }

/-- One CSV row of an `/api/import/servers` upload as produced by
`csv.DictReader`: `row.get(col)` yields `None` when the column is missing
from the header or the row is short, so every field is optional. -/
structure CsvServerRow where
  hostname : Option String := none
  ip_address : Option String := none
  os_type : Option String := none
  os_version : Option String := none
  environment : Option String := none
  owner : Option String := none
  deriving Repr, DecidableEq

/-- Processing of one CSV row by `import_table` for the `servers` table
(src/app.py lines 533-559).  The statement is `INSERT OR IGNORE`: SQLite
resolves any constraint violation — the NOT NULL on `hostname` (a `None`
value from a malformed row) as well as the UNIQUE on `hostname` (a duplicate
of an existing row) — by silently skipping the insert with `rowcount = 0`, so
neither raises, `imported` is not incremented and nothing reaches the
`errors` list; the `except` branch that would append to `errors` is
unreachable for these statements.  A row that violates nothing is inserted
and counted. -/
def import_server_row (acc : DB × Nat × List String) (row : CsvServerRow)
    (now : Nat) : DB × Nat × List String :=
  match row.hostname with
  | none => acc
  | some h =>
    if acc.1.servers.any (fun s => s.hostname = h) then acc
    else
      let newId := acc.1.seq_servers + 1
      let srow : Server :=
        { id := newId
          hostname := h
          ip_address := row.ip_address
          os_type := row.os_type
          os_version := row.os_version
          environment := row.environment
          owner := row.owner
          status := some "active"
          created_at := now
          updated_at := now }
      ({ acc.1 with servers := acc.1.servers ++ [srow], seq_servers := newId },
       acc.2.1 + 1, acc.2.2)

/-- The row loop of `import_table` (src/app.py lines 530-561) threading the
accumulated database, `imported` count and `errors` list through the rows. -/
def import_servers_go (acc : DB × Nat × List String) :
    List CsvServerRow → Nat → DB × Nat × List String
  | [], _ => acc
  | row :: rest, now => import_servers_go (import_server_row acc row now) rest now

/-- Handler `import_table` for the `servers` table (src/app.py lines 513-568):
row-at-a-time processing starting from `imported = 0`, `errors = []`,
returning the updated database together with the `imported` and `errors`
fields of the JSON reply. -/
def import_table_servers (db : DB) (rows : List CsvServerRow) (now : Nat) :
    DB × Nat × List String :=
  import_servers_go (db, 0, []) rows now

/-- Well-formedness maintained by SQLite for the `servers` table: every row id
was assigned by the AUTOINCREMENT sequence (so is at most `seq_servers`), and
ids are pairwise distinct (INTEGER PRIMARY KEY). -/
def ServersWF (db : DB) : Prop :=
  (∀ s ∈ db.servers, s.id ≤ db.seq_servers) ∧
    (db.servers.map (fun s => s.id)).Nodup

instance (db : DB) : Decidable (ServersWF db) := by
  unfold ServersWF; infer_instance

/-- Database state seen by the caller after `add_server` returns: on the
`IntegrityError` branch the handler reaches `finally: conn.close()` without a
commit, so the file keeps its previous contents. -/
def add_server_result (db : DB) (req : AddServerRequest) (now : Nat) : DB :=
  match add_server db req now with
  | .ok (db2, _) => db2
  | .error _ => db

/-- Fixture: a store whose only server carries operator-curated metadata. -/
def c1Db : DB :=
  { emptyDB with
      servers := [{ id := 1, hostname := "host-a", owner := some "alice",
                    environment := some "staging", location := some "dc1",
                    notes := some "keep me", created_at := 3, updated_at := 3 }]
      seq_servers := 1 }

/-- Fixture: a discovery scan for the host of `c1Db`. -/
def c1Scan : SystemInfo :=
  { hostname := "host-a", ip_address := "10.0.0.5", os_type := "Linux",
    os_version := "6.1", cpu_cores := 4, memory_gb := 8, disk_gb := 100 }

/-- Fixture: first scan of host-a (4 cores, 8 GiB). -/
def c2Scan1 : SystemInfo :=
  { hostname := "host-a", ip_address := "10.0.0.1", os_type := "Linux",
    os_version := "5.15", cpu_cores := 4, memory_gb := 8, disk_gb := 50 }

/-- Fixture: second scan of host-a (8 cores, 16 GiB). -/
def c2Scan2 : SystemInfo :=
  { hostname := "host-a", ip_address := "10.0.0.1", os_type := "Linux",
    os_version := "5.15", cpu_cores := 8, memory_gb := 16, disk_gb := 50 }

/-- Fixture: the store after reconciling `c2Scan1` into an empty store. -/
def c2Db1 : DB := (discover_local emptyDB c2Scan1 [] [] 1).1

/-- Fixture: the store after a second reconcile of the same host. -/
def c2Db2 : DB := (discover_local c2Db1 c2Scan2 [] [] 2).1

/-- Fixture: server db-01 hosting service 1 (application 1), a second service
on another server, and a dependency from service 2 to service 1. -/
def c4Db : DB :=
  { emptyDB with
      servers := [{ id := 1, hostname := "db-01" }]
      applications := [{ id := 1, name := "MySQL" }]
      services := [{ id := 1, server_id := 1, application_id := some 1,
                     service_name := "mysql-primary", port := some 3306 },
                   { id := 2, server_id := 7, service_name := "web-app" }]
      dependencies := [{ id := 1, source_service_id := 2, target_service_id := 1 }]
      seq_servers := 1
      seq_applications := 1
      seq_services := 2
      seq_dependencies := 1 }

/-- Fixture: a store already holding a server named db-01. -/
def c5Db : DB :=
  { emptyDB with servers := [{ id := 1, hostname := "db-01" }], seq_servers := 1 }

/-- Fixture: a create request reusing the hostname db-01. -/
def c5Req : AddServerRequest :=
  { hostname := "db-01", ip_address := some "10.0.2.10" }

/-- Fixture: a dependency request whose endpoints reference no service. -/
def c6Req : AddDependencyRequest :=
  { source_service_id := 1, target_service_id := 2 }

/-- Fixture: a service create request with a negative port. -/
def c7Req : AddServiceRequest :=
  { server_id := 1, service_name := "svc", port := some (-1) }

/-- Fixture: an import batch of a malformed row (missing hostname), a good
row, and a duplicate of the good row. -/
def c8Rows : List CsvServerRow :=
  [{}, { hostname := some "host-a" }, { hostname := some "host-a", owner := some "bob" }]

/-- Fixture: a store with one discovered server and its discovery record. -/
def c10Db : DB :=
  { emptyDB with
      servers := [{ id := 1, hostname := "host-a" }]
      discovery_history := [discoveryRecordOf 1 1 c2Scan1 [] [] 1]
      seq_servers := 1
      seq_discovery := 1 }

/-- Fixture: the one server row of `c10Db`. -/
def c10Srv : Server := { id := 1, hostname := "host-a" }

theorem filter_filter_not {α} (p : α → Bool) (l : List α) :
    (l.filter fun a => !(p a)).filter p = [] := by
  induction l with
  | nil => rfl
  | cons a l ih =>
    by_cases h : p a = true
    · simp [List.filter_cons, h, ih]
    · simp [List.filter_cons, h, ih]

theorem filter_not_append_filter {α} (p : α → Bool) (l : List α) (x : α)
    (hx : p x = true) :
    ((l.filter fun a => !(p a)) ++ [x]).filter p = [x] := by
  rw [List.filter_append, filter_filter_not]
  simp [hx]

theorem find?_filter_not_append {α} (p : α → Bool) (l : List α) (x : α)
    (hx : p x = true) :
    ((l.filter fun a => !(p a)) ++ [x]).find? p = some x := by
  induction l with
  | nil => simp [List.find?, hx]
  | cons a l ih =>
    by_cases h : p a = true
    · simp [List.filter_cons, h, ih]
    · simp only [List.filter_cons, h]
      simpa [List.find?, h] using ih

theorem mem_filter_not {α} (p : α → Bool) (l : List α) (a : α)
    (ha : a ∈ l.filter fun x => !(p x)) : a ∈ l ∧ p a = false := by
  have h := List.mem_filter.1 ha
  exact ⟨h.1, by simpa using h.2⟩

theorem discover_local_servers_eq (db : DB) (scan : SystemInfo)
    (procs : List ProcInfo) (conns : List ConnInfo) (now : Nat) :
    (discover_local db scan procs conns now).1.servers
      = (db.servers.filter fun s => !(decide (s.hostname = scan.hostname)))
          ++ [discoveredRow (db.seq_servers + 1) scan now] := by
  simp [discover_local]

theorem serverByHostname_discover_local (db : DB) (scan : SystemInfo)
    (procs : List ProcInfo) (conns : List ConnInfo) (now : Nat) :
    serverByHostname (discover_local db scan procs conns now).1 scan.hostname
      = some (discoveredRow (db.seq_servers + 1) scan now) := by
  unfold serverByHostname
  rw [discover_local_servers_eq]
  exact find?_filter_not_append (fun s => decide (s.hostname = scan.hostname))
    db.servers (discoveredRow (db.seq_servers + 1) scan now) (by simp [discoveredRow])

theorem discover_local_rows_for_host (db : DB) (scan : SystemInfo)
    (procs : List ProcInfo) (conns : List ConnInfo) (now : Nat) :
    ((discover_local db scan procs conns now).1.servers.filter
        fun s => s.hostname = scan.hostname)
      = [discoveredRow (db.seq_servers + 1) scan now] := by
  rw [discover_local_servers_eq]
  exact filter_not_append_filter (fun s => decide (s.hostname = scan.hostname))
    db.servers (discoveredRow (db.seq_servers + 1) scan now) (by simp [discoveredRow])

theorem discover_local_history_eq (db : DB) (scan : SystemInfo)
    (procs : List ProcInfo) (conns : List ConnInfo) (now : Nat) :
    (discover_local db scan procs conns now).1.discovery_history
      = db.discovery_history ++
          [discoveryRecordOf (db.seq_discovery + 1) (db.seq_servers + 1)
            scan procs conns now] := rfl

theorem reconcileAll_history_length
    (runs : List (SystemInfo × List ProcInfo × List ConnInfo × Nat)) (db : DB) :
    (reconcileAll db runs).discovery_history.length
      = db.discovery_history.length + runs.length := by
  induction runs generalizing db with
  | nil => simp [reconcileAll]
  | cons x rest ih =>
    rw [reconcileAll, ih, discover_local_history_eq]
    simp
    omega

/-- C1: the claim asserts that a reconcile of an already-registered hostname
leaves the operator-set fields (environment, owner, location, notes) of the
row unchanged.  It is false: `INSERT OR REPLACE` replaces the whole row, and
on the store `c1Db`, whose host-a row carries owner alice, environment
staging, location dc1 and notes, the reconcile resets all four to NULL. -/
theorem discover_local_clobbers_operator_fields :
    (serverByHostname c1Db "host-a").map
        (fun s => (s.owner, s.environment, s.location, s.notes))
      = some (some "alice", some "staging", some "dc1", some "keep me")
    ∧ (serverByHostname (discover_local c1Db c1Scan [] [] 10).1 "host-a").map
        (fun s => (s.owner, s.environment, s.location, s.notes))
      = some (none, none, none, none) := by
  constructor <;> rfl

/-- C1 (amended): a reconcile of an already-registered hostname replaces the
whole row: the machine-observable fields are set from the scan and `last_seen`
to the scan time, while the operator-set fields (environment, owner, location,
notes) are reset to NULL — their previous values are lost, not preserved. -/
theorem discover_local_resets_operator_fields (db : DB) (scan : SystemInfo)
    (procs : List ProcInfo) (conns : List ConnInfo) (now : Nat) :
    serverByHostname (discover_local db scan procs conns now).1 scan.hostname
      = some (discoveredRow (db.seq_servers + 1) scan now)
    ∧ (discoveredRow (db.seq_servers + 1) scan now).owner = none
    ∧ (discoveredRow (db.seq_servers + 1) scan now).environment = none
    ∧ (discoveredRow (db.seq_servers + 1) scan now).location = none
    ∧ (discoveredRow (db.seq_servers + 1) scan now).notes = none
    ∧ (discoveredRow (db.seq_servers + 1) scan now).ip_address = some scan.ip_address
    ∧ (discoveredRow (db.seq_servers + 1) scan now).os_type = some scan.os_type
    ∧ (discoveredRow (db.seq_servers + 1) scan now).cpu_cores = some scan.cpu_cores
    ∧ (discoveredRow (db.seq_servers + 1) scan now).memory_gb = some scan.memory_gb
    ∧ (discoveredRow (db.seq_servers + 1) scan now).disk_gb = some scan.disk_gb
    ∧ (discoveredRow (db.seq_servers + 1) scan now).last_seen = some now :=
  ⟨serverByHostname_discover_local db scan procs conns now,
    rfl, rfl, rfl, rfl, rfl, rfl, rfl, rfl, rfl, rfl⟩

/-- C2: the claim asserts the second reconcile updates the same row.  It is
false in the row-identity sense: reconciling host-a twice from an empty store
leaves the unique host-a row with id 2, not the id 1 it had after the first
call — `INSERT OR REPLACE` deleted row 1 and inserted a fresh row. -/
theorem discover_local_second_call_changes_row_id :
    (serverByHostname c2Db1 "host-a").map (fun s => s.id) = some 1
    ∧ (serverByHostname c2Db2 "host-a").map (fun s => s.id) = some 2 := by
  constructor <;> rfl

/-- C2 (amended): after two successive reconciles of the same hostname the
store holds exactly one row for that hostname, its machine-observed fields
equal to the second scan's values; but the second call replaces the row under
a fresh id rather than updating the first call's row in place. -/
theorem discover_local_twice_one_row (db : DB) (scan1 scan2 : SystemInfo)
    (procs1 procs2 : List ProcInfo) (conns1 conns2 : List ConnInfo)
    (t1 t2 : Nat) (hsame : scan2.hostname = scan1.hostname) :
    (((discover_local (discover_local db scan1 procs1 conns1 t1).1
          scan2 procs2 conns2 t2).1).servers.filter
        fun s => s.hostname = scan1.hostname)
      = [discoveredRow (db.seq_servers + 1 + 1) scan2 t2]
    ∧ (discoveredRow (db.seq_servers + 1 + 1) scan2 t2).cpu_cores = some scan2.cpu_cores
    ∧ (discoveredRow (db.seq_servers + 1 + 1) scan2 t2).memory_gb = some scan2.memory_gb
    ∧ (discoveredRow (db.seq_servers + 1 + 1) scan2 t2).disk_gb = some scan2.disk_gb
    ∧ (discoveredRow (db.seq_servers + 1 + 1) scan2 t2).ip_address = some scan2.ip_address
    ∧ (discoveredRow (db.seq_servers + 1 + 1) scan2 t2).id ≠
        (discoveredRow (db.seq_servers + 1) scan1 t1).id := by
  refine ⟨?_, rfl, rfl, rfl, rfl, by simp [discoveredRow]⟩
  have h := discover_local_rows_for_host (discover_local db scan1 procs1 conns1 t1).1
    scan2 procs2 conns2 t2
  rw [hsame] at h
  simpa [discover_local] using h

/-- C2 (amended) witness: the two-scan scenario of the spec, run concretely. -/
theorem discover_local_twice_one_row_witness :
    ((c2Db2.servers.filter fun s => s.hostname = "host-a")
        = [discoveredRow 2 c2Scan2 2]
      ∧ (discoveredRow 2 c2Scan2 2).cpu_cores = some 8
      ∧ (discoveredRow 2 c2Scan2 2).memory_gb = some 16
      ∧ (discoveredRow 2 c2Scan2 2).disk_gb = some 50
      ∧ (discoveredRow 2 c2Scan2 2).ip_address = some "10.0.0.1"
      ∧ (discoveredRow 2 c2Scan2 2).id ≠ (discoveredRow 1 c2Scan1 1).id) :=
  discover_local_twice_one_row emptyDB c2Scan1 c2Scan2 [] [] [] [] 1 2 rfl

/-- C3: every reconcile appends exactly one `discovery_history` row,
referencing the server id the call resolved, and leaves every existing record
untouched (the old list is a verbatim prefix); folding N reconciles over any
store grows the record count by exactly N, so N reconciles of the same host
starting from an empty store leave exactly N records. -/
theorem discover_local_appends_one_discovery_record (db : DB) (scan : SystemInfo)
    (procs : List ProcInfo) (conns : List ConnInfo) (now : Nat) :
    ((discover_local db scan procs conns now).1.discovery_history
        = db.discovery_history ++
            [discoveryRecordOf (db.seq_discovery + 1)
              (discover_local db scan procs conns now).2 scan procs conns now])
    ∧ (discoveryRecordOf (db.seq_discovery + 1)
          (discover_local db scan procs conns now).2 scan procs conns now).server_id
        = (discover_local db scan procs conns now).2
    ∧ (∀ runs : List (SystemInfo × List ProcInfo × List ConnInfo × Nat),
        ∀ start : DB, (reconcileAll start runs).discovery_history.length
          = start.discovery_history.length + runs.length)
    ∧ (∀ runs : List (SystemInfo × List ProcInfo × List ConnInfo × Nat),
        (reconcileAll emptyDB runs).discovery_history.length = runs.length) :=
  ⟨rfl, rfl, fun runs start => reconcileAll_history_length runs start,
    fun runs => by simpa [emptyDB] using reconcileAll_history_length runs emptyDB⟩

/-- C9: the OS version stored by a reconcile is `'Unknown'` when the scanned
string is empty, and otherwise the prefix of the scanned string of length at
most 50 characters. -/
theorem discover_local_os_version_bounded (db : DB) (scan : SystemInfo)
    (procs : List ProcInfo) (conns : List ConnInfo) (now : Nat) :
    serverByHostname (discover_local db scan procs conns now).1 scan.hostname
      = some (discoveredRow (db.seq_servers + 1) scan now)
    ∧ (discoveredRow (db.seq_servers + 1) scan now).os_version
        = some (storedOsVersion scan.os_version)
    ∧ (if scan.os_version = "" then storedOsVersion scan.os_version = "Unknown"
       else (storedOsVersion scan.os_version).data <+: scan.os_version.data
         ∧ (storedOsVersion scan.os_version).length ≤ 50) := by
  refine ⟨serverByHostname_discover_local db scan procs conns now, rfl, ?_⟩
  by_cases h : scan.os_version = ""
  · simp [h, storedOsVersion]
  · simp only [h, if_false, storedOsVersion, if_neg h, strTake]
    constructor
    · exact ⟨scan.os_version.data.drop 50, List.take_append_drop 50 scan.os_version.data⟩
    · show (scan.os_version.data.take 50).length ≤ 50
      rw [List.length_take]
      omega

/-- C4: `init_db` declares `ON DELETE CASCADE` on `services.server_id` and the
dependency endpoints, and `ON DELETE SET NULL` on `services.application_id`,
but no connection in app.py enables `PRAGMA foreign_keys`, so SQLite enforces
none of it.  On `c4Db` — server 1 hosting service 1 (of application 1) with a
dependency pointing at service 1 — deleting server 1 leaves both services and
the dependency untouched, and deleting application 1 leaves service 1 with
its dangling `application_id = 1` instead of clearing it. -/
theorem delete_server_cascade_not_enforced :
    (delete_server_asExecuted c4Db 1).servers = []
    ∧ (delete_server_asExecuted c4Db 1).services = c4Db.services
    ∧ (delete_server_asExecuted c4Db 1).dependencies = c4Db.dependencies
    ∧ (delete_application_asExecuted c4Db 1).applications = []
    ∧ ((delete_application_asExecuted c4Db 1).services.map fun s => s.application_id)
        = [some 1, none] := by
  exact ⟨rfl, rfl, rfl, rfl, rfl⟩

/-- C5: creating a server whose hostname already exists hits the UNIQUE
constraint: the handler answers the Conflict error `'Server already exists'`
and the store is unchanged (same server row count). -/
theorem add_server_duplicate_hostname_conflict (db : DB) (req : AddServerRequest)
    (now : Nat) (h : ∃ s ∈ db.servers, s.hostname = req.hostname) :
    add_server db req now = .error (.conflict "Server already exists")
    ∧ (add_server_result db req now).servers.length = db.servers.length := by
  have hb : db.servers.any (fun s => s.hostname = req.hostname) = true := by
    obtain ⟨s, hs, he⟩ := h
    exact List.any_eq_true.2 ⟨s, hs, by simp [he]⟩
  have herr : add_server db req now = .error (.conflict "Server already exists") := by
    unfold add_server
    rw [if_pos hb]
  refine ⟨herr, ?_⟩
  unfold add_server_result
  rw [herr]

/-- C5 witness: retrying hostname db-01 against the store that has it. -/
theorem add_server_duplicate_hostname_conflict_witness :
    add_server c5Db c5Req 9 = .error (.conflict "Server already exists")
    ∧ (add_server_result c5Db c5Req 9).servers.length = c5Db.servers.length :=
  add_server_duplicate_hostname_conflict c5Db c5Req 9 (by decide)

/-- C6: the claim says a dependency whose endpoints do not reference existing
services is rejected and no row added.  The handler has no such check and
foreign keys are unenforced (`PRAGMA foreign_keys` never enabled), so on an
empty store — no services at all — adding an edge between ids 1 and 2
succeeds and stores the dangling row. -/
theorem add_dependency_accepts_missing_endpoints :
    emptyDB.services = []
    ∧ ((add_dependency emptyDB c6Req 0).1.dependencies.map
        fun d => (d.source_service_id, d.target_service_id)) = [(1, 2)]
    ∧ (add_dependency emptyDB c6Req 0).1.dependencies.length = 1 := by
  exact ⟨rfl, rfl, rfl⟩

/-- C7: the claim says a create request with a negative numeric field is
rejected and no row created.  `add_service` performs no validation: a request
with port -1 succeeds and the row is stored with the negative port. -/
theorem add_service_accepts_negative_port :
    ((add_service emptyDB c7Req 0).1.services.map fun s => s.port) = [some (-1)]
    ∧ (add_service emptyDB c7Req 0).1.services.length
        = emptyDB.services.length + 1 := by
  exact ⟨rfl, rfl⟩

/-- C7 (amended): negative numeric fields are not validated: a service create
request with a negative port succeeds, appending exactly one row that stores
the negative value unchanged. -/
theorem add_service_stores_negative_port_unchecked (db : DB)
    (req : AddServiceRequest) (now : Nat) (p : Int) (hp : req.port = some p)
    (hneg : p < 0) :
    (add_service db req now).1.services
      = db.services ++ [serviceRow (db.seq_services + 1) req now]
    ∧ (serviceRow (db.seq_services + 1) req now).port = some p := by
  refine ⟨rfl, ?_⟩
  simp [serviceRow, hp]

/-- C7 (amended) witness: the negative-port request, run concretely. -/
theorem add_service_stores_negative_port_unchecked_witness :
    (add_service emptyDB c7Req 0).1.services
      = emptyDB.services ++ [serviceRow (emptyDB.seq_services + 1) c7Req 0]
    ∧ (serviceRow (emptyDB.seq_services + 1) c7Req 0).port = some (-1) :=
  add_service_stores_negative_port_unchecked emptyDB c7Req 0 (-1) rfl (by decide)

theorem import_server_row_malformed (acc : DB × Nat × List String)
    (r : CsvServerRow) (now : Nat) (hr : r.hostname = none) :
    import_server_row acc r now = acc := by
  unfold import_server_row
  rw [hr]

theorem import_server_row_duplicate (acc : DB × Nat × List String)
    (r : CsvServerRow) (now : Nat) (h : String) (hr : r.hostname = some h)
    (hd : acc.1.servers.any (fun s => s.hostname = h) = true) :
    import_server_row acc r now = acc := by
  unfold import_server_row
  rw [hr]
  dsimp only
  rw [if_pos hd]

theorem import_server_row_errors (acc : DB × Nat × List String)
    (r : CsvServerRow) (now : Nat) :
    (import_server_row acc r now).2.2 = acc.2.2 := by
  unfold import_server_row
  cases r.hostname with
  | none => rfl
  | some h =>
    dsimp only
    split <;> rfl

theorem import_servers_go_errors (rows : List CsvServerRow)
    (acc : DB × Nat × List String) (now : Nat) :
    (import_servers_go acc rows now).2.2 = acc.2.2 := by
  induction rows generalizing acc with
  | nil => rfl
  | cons r rest ih =>
    rw [import_servers_go, ih, import_server_row_errors]

/-- C8: the claim says a duplicate row is silently skipped (true) but that a
malformed row adds one message to `errors`.  The latter is false: the batch
`c8Rows` holds a malformed row (missing hostname), a good row and a duplicate
of it, yet the reply is `imported = 1` with an empty `errors` list — the
`INSERT OR IGNORE` swallows the NOT NULL violation of the malformed row just
as silently as the UNIQUE violation of the duplicate. -/
theorem import_table_malformed_row_not_reported :
    (import_table_servers emptyDB c8Rows 0).2.1 = 1
    ∧ (import_table_servers emptyDB c8Rows 0).2.2 = ([] : List String)
    ∧ ((import_table_servers emptyDB c8Rows 0).1.servers.map fun s => s.hostname)
        = ["host-a"] := by
  exact ⟨rfl, rfl, rfl⟩

/-- C8 (amended): import is row-at-a-time and best-effort, but every row
failure is silent: a duplicate-key row and a malformed row (missing unique
key) are both skipped without being counted as imported and without adding to
`errors` — the `errors` list is empty for every input — and in both cases
processing continues with the remaining rows. -/
theorem import_table_row_failures_silent :
    (∀ (db : DB) (rows : List CsvServerRow) (now : Nat),
        (import_table_servers db rows now).2.2 = ([] : List String))
    ∧ (∀ (acc : DB × Nat × List String) (rows : List CsvServerRow) (now : Nat)
          (r : CsvServerRow), r.hostname = none →
        import_servers_go acc (r :: rows) now = import_servers_go acc rows now)
    ∧ (∀ (acc : DB × Nat × List String) (rows : List CsvServerRow) (now : Nat)
          (r : CsvServerRow) (h : String), r.hostname = some h →
        acc.1.servers.any (fun s => s.hostname = h) = true →
        import_servers_go acc (r :: rows) now = import_servers_go acc rows now) := by
  refine ⟨?_, ?_, ?_⟩
  · intro db rows now
    exact import_servers_go_errors rows (db, 0, []) now
  · intro acc rows now r hr
    rw [import_servers_go, import_server_row_malformed acc r now hr]
  · intro acc rows now r h hr hd
    rw [import_servers_go, import_server_row_duplicate acc r now h hr hd]

/-- C8 (amended) witness: the empty errors list on the mixed batch, a
malformed row skipped in place, and a duplicate row skipped in place. -/
theorem import_table_row_failures_silent_witness :
    (import_table_servers emptyDB c8Rows 0).2.2 = ([] : List String)
    ∧ import_servers_go (emptyDB, 0, ([] : List String)) [{}] 0
        = import_servers_go (emptyDB, 0, ([] : List String)) [] 0
    ∧ import_servers_go (c5Db, 0, ([] : List String)) [{ hostname := some "db-01" }] 0
        = import_servers_go (c5Db, 0, ([] : List String)) [] 0 :=
  ⟨import_table_row_failures_silent.1 emptyDB c8Rows 0,
   import_table_row_failures_silent.2.1 (emptyDB, 0, []) [] 0 {} rfl,
   import_table_row_failures_silent.2.2 (c5Db, 0, []) [] 0
     { hostname := some "db-01" } "db-01" rfl (by decide)⟩

/-- C10: reconciling a hostname that already has a row assigns the replacement
row the next AUTOINCREMENT id — strictly greater than the previous row's id —
so no row with the old id remains, and every discovery record that referenced
the old id is left referencing an id that identifies no server row. -/
theorem discover_local_fresh_id_dangles_history (db : DB) (scan : SystemInfo)
    (procs : List ProcInfo) (conns : List ConnInfo) (now : Nat) (srv : Server)
    (hwf : ServersWF db) (hmem : srv ∈ db.servers)
    (hhn : srv.hostname = scan.hostname) :
    (discover_local db scan procs conns now).2 = db.seq_servers + 1
    ∧ srv.id < (discover_local db scan procs conns now).2
    ∧ serverByHostname (discover_local db scan procs conns now).1 scan.hostname
        = some (discoveredRow (db.seq_servers + 1) scan now)
    ∧ (discoveredRow (db.seq_servers + 1) scan now).id = db.seq_servers + 1
    ∧ (∀ s ∈ (discover_local db scan procs conns now).1.servers, s.id ≠ srv.id)
    ∧ (∀ r ∈ db.discovery_history, r.server_id = srv.id →
        ∀ s ∈ (discover_local db scan procs conns now).1.servers,
          s.id ≠ r.server_id) := by
  have hid : srv.id ≤ db.seq_servers := hwf.1 srv hmem
  have hfresh : ∀ s ∈ (discover_local db scan procs conns now).1.servers,
      s.id ≠ srv.id := by
    intro s hs
    rw [discover_local_servers_eq] at hs
    rcases List.mem_append.1 hs with hf | hx
    · have hm := mem_filter_not (fun x => decide (x.hostname = scan.hostname))
        db.servers s hf
      intro heq
      have hsne : s ≠ srv := by
        intro hss
        rw [hss] at hm
        simp [hhn] at hm
      exact hsne (List.inj_on_of_nodup_map hwf.2 hm.1 hmem heq)
    · have hx2 : s = discoveredRow (db.seq_servers + 1) scan now := by
        simpa using hx
      rw [hx2]
      show db.seq_servers + 1 ≠ srv.id
      omega
  refine ⟨rfl, Nat.lt_succ_of_le hid,
    serverByHostname_discover_local db scan procs conns now, rfl, hfresh, ?_⟩
  intro r hr hrid s hs
  rw [hrid]
  exact hfresh s hs

/-- C10 witness: the one-server store `c10Db` with its discovery record,
reconciled again. -/
theorem discover_local_fresh_id_dangles_history_witness :
    (discover_local c10Db c1Scan [] [] 5).2 = c10Db.seq_servers + 1
    ∧ c10Srv.id < (discover_local c10Db c1Scan [] [] 5).2
    ∧ serverByHostname (discover_local c10Db c1Scan [] [] 5).1 c1Scan.hostname
        = some (discoveredRow (c10Db.seq_servers + 1) c1Scan 5)
    ∧ (discoveredRow (c10Db.seq_servers + 1) c1Scan 5).id = c10Db.seq_servers + 1
    ∧ (∀ s ∈ (discover_local c10Db c1Scan [] [] 5).1.servers, s.id ≠ c10Srv.id)
    ∧ (∀ r ∈ c10Db.discovery_history, r.server_id = c10Srv.id →
        ∀ s ∈ (discover_local c10Db c1Scan [] [] 5).1.servers,
          s.id ≠ r.server_id) :=
  discover_local_fresh_id_dangles_history c10Db c1Scan [] [] 5 c10Srv
    (by decide) (by simp [c10Db, c10Srv]) rfl

end SimpleCMDB
